import Mathlib

/-!
Verification of the asyncio interactive console bridge
(Lib/asyncio/console.py): the protocol by which the interactive
thread submits one compiled unit at a time to the event-loop thread,
blocks on a cross-thread future, and handles interrupts, process
exits and errors.

The embedding models the observable behaviour of
AsyncIOInteractiveConsole.runcode (the submitted callback, the
chained task completion and the blocking wait on the future),
the driver loop in interact (KeyboardInterrupt handling around
run_forever and the final exit), and REPLThread.run (the
internal-error return code path).
-/

namespace AsyncioConsole

/-- Opaque runtime values produced by executed units. -/
abbrev Val := Nat

/-- An execution-context snapshot identifier (contextvars.copy_context). -/
abbrev Ctx := Nat

/-- The error taxonomy visible to the console: SystemExit carrying a code,
KeyboardInterrupt, CancelledError, and any other BaseException tagged by
an identifier. -/
inductive Err where
  | systemExit (code : Int)
  | keyboardInterrupt
  | cancelled
  | userError (eid : Nat)
deriving DecidableEq

/-- State of a concurrent.futures.Future: pending, fulfilled with a value
(set_result), or failed with an error (set_exception). -/
inductive FutureState where
  | pending
  | fulfilled (v : Val)
  | failed (e : Err)
deriving DecidableEq

instance {α β : Type} [DecidableEq α] [DecidableEq β] :
    DecidableEq (Except α β) := fun a b =>
  match a, b with
  | .ok x, .ok y => decidable_of_iff (x = y) (by simp)
  | .error x, .error y => decidable_of_iff (x = y) (by simp)
  | .ok _, .error _ => isFalse (by simp)
  | .error _, .ok _ => isFalse (by simp)

/-- State of an asyncio task handle created by loop.create_task. A live
task records the result it will produce when it runs to completion;
cancellation is cooperative, so cancel on a live task only requests it. -/
inductive TaskStatus where
  | running (eventual : Except Err Val)
  | cancelRequested (eventual : Except Err Val)
  | done (r : Except Err Val)
deriving DecidableEq

/-- Whether the task handle reports done (Future.done in asyncio). -/
def TaskStatus.isDone : TaskStatus → Bool
  | .done _ => true
  | _ => false

/-- The mutable state of AsyncIOInteractiveConsole that the claims are
about: the namespace (self.locals), the captured context (self.context),
the pending-task handle (self.repl_future), the interrupt flag
(self.keyboard_interrupted, truthiness of the Python value), and the
recorded return code (self.return_code). -/
structure ConsoleState where
  locals : List (String × Val)
  context : Ctx
  repl_future : Option TaskStatus
  keyboard_interrupted : Bool
  return_code : Int
deriving DecidableEq

/-- AsyncIOInteractiveConsole construction: repl_future is None, the
interrupt flag unset, return code 0, and the ambient context snapshot is
captured once and stored. -/
def mkConsole (locals : List (String × Val)) (ambient : Ctx) : ConsoleState :=
  { locals := locals
    context := ambient
    repl_future := none
    keyboard_interrupted := false
    return_code := 0 }

/-- The observable outcome of invoking the compiled unit as a
zero-argument function against the namespace: it raises SystemExit,
raises KeyboardInterrupt, raises some other BaseException, returns a
plain (non-coroutine) value, or returns a coroutine. For a coroutine
the model records whether create_task itself raises and the eventual
result the spawned task would produce. -/
inductive InvokeOutcome where
  | sysExit (code : Int)
  | kbInterrupt
  | raises (eid : Nat)
  | value (v : Val)
  | coro (spawnErr : Option Nat) (eventual : Except Err Val)
deriving DecidableEq

/-- One compiled interactive unit: the namespace bindings its body writes
when it executes, and the outcome of invoking it. -/
structure CodeUnit where
  bindings : List (String × Val)
  outcome : InvokeOutcome
deriving DecidableEq

/-- Dictionary update of the namespace by the bindings a unit writes. -/
def nsUpdate (ns upd : List (String × Val)) : List (String × Val) :=
  upd ++ ns.filter (fun kv => (upd.find? (fun kv2 => kv2.1 == kv.1)).isNone)

/-- Result of one execution of the callback submitted by runcode:
updated console state, the future after any direct settlement, whether
loop.stop was requested, how many times set_result or set_exception was
called on the future, whether a task was spawned and under which
context. -/
structure CallbackOut where
  console : ConsoleState
  future : FutureState
  stopRequested : Bool
  futureWrites : Nat
  spawned : Bool
  spawnCtx : Option Ctx
deriving DecidableEq

/-- The callback body of runcode (console.py lines 34 to 59): invoke the
unit; on SystemExit record the code and stop the loop settling nothing;
on KeyboardInterrupt mark the session interrupted and fail the future;
on any other error fail the future; on a plain value resolve the future;
on a coroutine spawn a task under the captured context and chain it to
the future, failing the future directly only if create_task raises.
A plain invocation runs the unit body, so the namespace bindings are
applied in every branch except the coroutine one, where the body has not
run yet. -/
def callback (u : CodeUnit) (c : ConsoleState) (fut : FutureState)
    (stop : Bool) : CallbackOut :=
  match u.outcome with
  | .sysExit k =>
      { console := { c with
          locals := nsUpdate c.locals u.bindings
          return_code := k }
        future := fut
        stopRequested := true
        futureWrites := 0
        spawned := false
        spawnCtx := none }
  | .kbInterrupt =>
      { console := { c with
          locals := nsUpdate c.locals u.bindings
          keyboard_interrupted := true }
        future := .failed .keyboardInterrupt
        stopRequested := stop
        futureWrites := 1
        spawned := false
        spawnCtx := none }
  | .raises eid =>
      { console := { c with locals := nsUpdate c.locals u.bindings }
        future := .failed (.userError eid)
        stopRequested := stop
        futureWrites := 1
        spawned := false
        spawnCtx := none }
  | .value v =>
      { console := { c with locals := nsUpdate c.locals u.bindings }
        future := .fulfilled v
        stopRequested := stop
        futureWrites := 1
        spawned := false
        spawnCtx := none }
  | .coro spawnErr eventual =>
      match spawnErr with
      | some eid =>
          { console := c
            future := .failed (.userError eid)
            stopRequested := stop
            futureWrites := 1
            spawned := false
            spawnCtx := none }
      | none =>
          { console := { c with repl_future := some (.running eventual) }
            future := fut
            stopRequested := stop
            futureWrites := 0
            spawned := true
            spawnCtx := some c.context }

/-- Result of the chained completion step. -/
structure ChainOut where
  console : ConsoleState
  future : FutureState
  futureWrites : Nat
deriving DecidableEq

/-- The scheduler advances the pending task to completion; the callback
installed by futures.chain copies the task result into the
cross-thread future (value via set_result, error via set_exception).
A cancel-requested task completes with CancelledError. A done or absent
task does nothing. The handle itself is not cleared. -/
def taskComplete (c : ConsoleState) (fut : FutureState) : ChainOut :=
  match c.repl_future with
  | some (.running r) =>
      { console := { c with repl_future := some (.done r) }
        future := match r with
          | .ok v => .fulfilled v
          | .error e => .failed e
        futureWrites := 1 }
  | some (.cancelRequested _) =>
      { console := { c with repl_future := some (.done (.error .cancelled)) }
        future := .failed .cancelled
        futureWrites := 1 }
  | some (.done r) =>
      { console := { c with repl_future := some (.done r) }
        future := fut
        futureWrites := 0 }
  | none =>
      { console := c
        future := fut
        futureWrites := 0 }

/-- What runcode printed after the wait: nothing, the fixed
KeyboardInterrupt notice, or a formatted traceback of an error. -/
inductive Printed where
  | nothing
  | interruptNotice
  | traceback (e : Err)
deriving DecidableEq

/-- What runcode returns to the interactive thread: the value of the
future, an implicit None after an exception was handled, or no return at
all because future.result() blocks on a forever-pending future. -/
inductive ExecResult where
  | value (v : Val)
  | finishedNone
  | blocked
deriving DecidableEq

/-- Result of the blocking wait and its exception handling. -/
structure WaitOut where
  console : ConsoleState
  stopRequested : Bool
  result : ExecResult
  printed : Printed
deriving DecidableEq

/-- The tail of runcode (console.py lines 63 to 73): future.result()
returns the fulfilled value; a stored SystemExit records its code and
stops the loop; any other stored error prints the fixed interrupt
notice when the session is marked interrupted and a formatted traceback
otherwise. A forever-pending future blocks. -/
def waitResult (c : ConsoleState) (fut : FutureState) (stop : Bool) : WaitOut :=
  match fut with
  | .pending =>
      { console := c, stopRequested := stop
        result := .blocked, printed := .nothing }
  | .fulfilled v =>
      { console := c, stopRequested := stop
        result := .value v, printed := .nothing }
  | .failed (.systemExit k) =>
      { console := { c with return_code := k }, stopRequested := true
        result := .finishedNone, printed := .nothing }
  | .failed .keyboardInterrupt =>
      { console := c, stopRequested := stop
        result := .finishedNone
        printed := if c.keyboard_interrupted then .interruptNotice
          else .traceback .keyboardInterrupt }
  | .failed .cancelled =>
      { console := c, stopRequested := stop
        result := .finishedNone
        printed := if c.keyboard_interrupted then .interruptNotice
          else .traceback .cancelled }
  | .failed (.userError eid) =>
      { console := c, stopRequested := stop
        result := .finishedNone
        printed := if c.keyboard_interrupted then .interruptNotice
          else .traceback (.userError eid) }

/-- Result of one whole runcode call as seen by the interactive thread. -/
structure RunOut where
  console : ConsoleState
  future : FutureState
  stopRequested : Bool
  result : ExecResult
  printed : Printed
  submitCtx : Ctx
  spawnCtx : Option Ctx
deriving DecidableEq

/-- One synchronous runcode call (console.py lines 31 to 73): create a
fresh pending future, submit the callback under the captured context via
call_soon_threadsafe, let the scheduler run it and, when a task was
spawned and chained, let that task run to completion, then block on
future.result() and handle the outcome. -/
def runcodeModel (u : CodeUnit) (c : ConsoleState) (stop : Bool) : RunOut :=
  let cb := callback u c .pending stop
  let afterC :=
    if cb.spawned then
      let t := taskComplete cb.console cb.future
      (t.console, t.future)
    else (cb.console, cb.future)
  let w := waitResult afterC.1 afterC.2 cb.stopRequested
  { console := w.console
    future := afterC.2
    stopRequested := w.stopRequested
    result := w.result
    printed := w.printed
    submitCtx := c.context
    spawnCtx := cb.spawnCtx }

/-- Cancellation of the pending handle: cancel on a live task requests
cooperative cancellation; cancel on a done task has no effect. -/
def cancelPending : TaskStatus → TaskStatus
  | .running r => .cancelRequested r
  | .cancelRequested r => .cancelRequested r
  | .done r => .done r

/-- The KeyboardInterrupt arm of the driver loop in interact
(console.py lines 199 to 203): set the interrupted flag, and when a
pending handle exists and is not done, cancel it. -/
def driverInterrupt (c : ConsoleState) : ConsoleState :=
  let c1 : ConsoleState := { c with keyboard_interrupted := true }
  match c1.repl_future with
  | some t => if t.isDone then c1
      else { c1 with repl_future := some (cancelPending t) }
  | none => c1

/-- Outcome of the interactive read loop run by REPLThread.run: it
either ends in the expected way (end of input, or SystemExit from the
exit and quit commands, which is passed) or raises an unexpected
BaseException. -/
inductive LoopOutcome where
  | normal
  | unexpectedError
deriving DecidableEq

/-- The exception handling of REPLThread.run around the interactive
loop (console.py lines 112 to 121): an unexpected failure of the loop
itself records return code 1; the expected endings leave the recorded
code untouched. -/
def replThreadRun (c : ConsoleState) (o : LoopOutcome) : ConsoleState :=
  match o with
  | .normal => c
  | .unexpectedError => { c with return_code := 1 }

/-- The teardown of interact (console.py line 209): the process exits
with the return code recorded on the console, read once. -/
def interactExitCode (c : ConsoleState) : Int := c.return_code

/-- The SystemExit code a unit carries, if any: either the invocation
raises SystemExit directly, or the spawned task completes with a
SystemExit error that the chain stores into the future. -/
def sysExitCodeOf (u : CodeUnit) : Option Int :=
  match u.outcome with
  | .sysExit k => some k
  | .coro none (.error (.systemExit k)) => some k
  | _ => none

/-- The default farewell text of interact. -/
def defaultExitMsg : String := "exiting asyncio REPL...\n"

/-- Python truthiness of the expression a or b for an optional string:
None and the empty string are falsy. -/
def pyOrStr (a : Option String) (b : String) : String :=
  match a with
  | none => b
  | some s => if s.isEmpty then b else s

/-- The final write of interact (console.py line 208):
console.write(exitmsg or the default farewell). -/
def interactFinalOutput (exitmsg : Option String) : String :=
  pyOrStr exitmsg defaultExitMsg

/-- Run a sequence of units through runcodeModel, recording the context
each callback submission used. -/
def runSeq (c : ConsoleState) (us : List CodeUnit) : ConsoleState × List Ctx :=
  match us with
  | [] => (c, [])
  | u :: rest =>
      ((runSeq (runcodeModel u c false).console rest).1,
        (runcodeModel u c false).submitCtx ::
          (runSeq (runcodeModel u c false).console rest).2)

/-- One observable step of the whole session, for invariants that span
several operations: a full runcode call, a driver-level interrupt, or
the scheduler completing the pending task. -/
inductive SessionStep where
  | execUnit (u : CodeUnit)
  | interrupt
  | complete
deriving DecidableEq

/-- Apply one session step to the console state. -/
def applyStep (c : ConsoleState) (s : SessionStep) : ConsoleState :=
  match s with
  | .execUnit u => (runcodeModel u c false).console
  | .interrupt => driverInterrupt c
  | .complete => (taskComplete c .pending).console

/-- Apply a sequence of session steps. -/
def applySteps (c : ConsoleState) (ss : List SessionStep) : ConsoleState :=
  ss.foldl applyStep c

theorem runcodeModel_context (u : CodeUnit) (c : ConsoleState) (s : Bool) :
    (runcodeModel u c s).console.context = c.context := by
  obtain ⟨bs, o⟩ := u
  cases o with
  | sysExit k => rfl
  | kbInterrupt => rfl
  | raises eid => rfl
  | value v => rfl
  | coro se ev =>
      cases se with
      | some eid => rfl
      | none =>
          cases ev with
          | ok v => rfl
          | error e => cases e <;> rfl

theorem runcodeModel_submitCtx (u : CodeUnit) (c : ConsoleState) (s : Bool) :
    (runcodeModel u c s).submitCtx = c.context := rfl

theorem runcodeModel_spawnCtx (u : CodeUnit) (c : ConsoleState) (s : Bool) :
    ∀ y ∈ (runcodeModel u c s).spawnCtx, y = c.context := by
  obtain ⟨bs, o⟩ := u
  cases o with
  | sysExit k => intro y hy; cases hy
  | kbInterrupt => intro y hy; cases hy
  | raises eid => intro y hy; cases hy
  | value v => intro y hy; cases hy
  | coro se ev =>
      cases se with
      | some eid => intro y hy; cases hy
      | none =>
          intro y hy
          have : c.context = y := by
            simpa [runcodeModel, callback] using hy
          exact this.symm

theorem runSeq_context_inv (us : List CodeUnit) : ∀ c : ConsoleState,
    (runSeq c us).1.context = c.context ∧
    ∀ x ∈ (runSeq c us).2, x = c.context := by
  induction us with
  | nil =>
      intro c
      exact ⟨rfl, by intro x hx; cases hx⟩
  | cons u rest ih =>
      intro c
      have h1 := runcodeModel_context u c false
      have h2 := ih (runcodeModel u c false).console
      refine ⟨by rw [show (runSeq c (u :: rest)).1
        = (runSeq (runcodeModel u c false).console rest).1 from rfl, h2.1, h1], ?_⟩
      intro x hx
      have hx2 : x = (runcodeModel u c false).submitCtx ∨
          x ∈ (runSeq (runcodeModel u c false).console rest).2 := by
        simpa [runSeq] using hx
      rcases hx2 with hx2 | hx2
      · rw [hx2]; rfl
      · exact (h2.2 x hx2).trans h1

/-- C1: a unit whose invocation returns a plain, non-coroutine value has
its future resolved with that value inside the submitted callback, and
the synchronous runcode call returns that value to the interactive
thread, so the value is in hand before the reader proceeds to the next
statement; the namespace holds the bindings of the unit immediately
after. -/
theorem runcode_nonsuspending (bs : List (String × Val)) (v : Val)
    (c : ConsoleState) (stop : Bool) :
    (runcodeModel ⟨bs, .value v⟩ c stop).future = .fulfilled v ∧
    (runcodeModel ⟨bs, .value v⟩ c stop).result = .value v ∧
    (runcodeModel ⟨bs, .value v⟩ c stop).console.locals = nsUpdate c.locals bs ∧
    (runcodeModel ⟨bs, .value v⟩ c stop).printed = .nothing :=
  ⟨rfl, rfl, rfl, rfl⟩

/-- C2: one execution of the submitted callback performs at most one
settlement of the cross-thread future, counting the chained settlement
performed when the spawned task completes; and when a task is spawned
the callback itself performs no settlement and the chained completion
performs exactly one, so the future is never written twice. -/
theorem callback_settles_future_at_most_once (u : CodeUnit)
    (c : ConsoleState) (stop : Bool) :
    (callback u c .pending stop).futureWrites +
      (if (callback u c .pending stop).spawned then
        (taskComplete (callback u c .pending stop).console
          (callback u c .pending stop).future).futureWrites
      else 0) ≤ 1 ∧
    ((callback u c .pending stop).spawned = true →
      (callback u c .pending stop).futureWrites = 0 ∧
      (taskComplete (callback u c .pending stop).console
        (callback u c .pending stop).future).futureWrites = 1) := by
  obtain ⟨bs, o⟩ := u
  cases o with
  | sysExit k => exact ⟨by simp [callback], by simp [callback]⟩
  | kbInterrupt => exact ⟨by simp [callback], by simp [callback]⟩
  | raises eid => exact ⟨by simp [callback], by simp [callback]⟩
  | value v => exact ⟨by simp [callback], by simp [callback]⟩
  | coro se ev =>
      cases se with
      | some eid => exact ⟨by simp [callback], by simp [callback]⟩
      | none =>
          refine ⟨?_, fun _ => ⟨rfl, rfl⟩⟩
          simp [callback, taskComplete]

theorem callback_settles_future_at_most_once_witness :
    (callback ⟨[], .coro none (.ok 0)⟩ (mkConsole [] 0) .pending
        false).futureWrites +
      (if (callback ⟨[], .coro none (.ok 0)⟩ (mkConsole [] 0) .pending
          false).spawned then
        (taskComplete (callback ⟨[], .coro none (.ok 0)⟩ (mkConsole [] 0)
            .pending false).console
          (callback ⟨[], .coro none (.ok 0)⟩ (mkConsole [] 0) .pending
            false).future).futureWrites
      else 0) ≤ 1 ∧
    ((callback ⟨[], .coro none (.ok 0)⟩ (mkConsole [] 0) .pending
        false).spawned = true →
      (callback ⟨[], .coro none (.ok 0)⟩ (mkConsole [] 0) .pending
        false).futureWrites = 0 ∧
      (taskComplete (callback ⟨[], .coro none (.ok 0)⟩ (mkConsole [] 0)
          .pending false).console
        (callback ⟨[], .coro none (.ok 0)⟩ (mkConsole [] 0) .pending
          false).future).futureWrites = 1) :=
  callback_settles_future_at_most_once ⟨[], .coro none (.ok 0)⟩
    (mkConsole [] 0) false

/-- C3: a unit whose invocation raises SystemExit makes the callback
record the carried code into the return code of the session, request the
loop to stop, and settle nothing: the future is left pending with zero
settlements. -/
theorem callback_sysexit_bypasses_future (k : Int) (bs : List (String × Val))
    (c : ConsoleState) (stop : Bool) :
    (callback ⟨bs, .sysExit k⟩ c .pending stop).future = .pending ∧
    (callback ⟨bs, .sysExit k⟩ c .pending stop).console.return_code = k ∧
    (callback ⟨bs, .sysExit k⟩ c .pending stop).stopRequested = true ∧
    (callback ⟨bs, .sysExit k⟩ c .pending stop).futureWrites = 0 :=
  ⟨rfl, rfl, rfl, rfl⟩

/-- C4: when a statement has spawned a task that is still live, the
KeyboardInterrupt arm of the driver cancels exactly that pending handle;
the cancelled task then completes with CancelledError, the chain fails
the future with it, and the blocking wait of the interactive thread
unblocks. A handle that is already done is not cancelled. -/
theorem driver_interrupt_cancels_pending_task (c : ConsoleState)
    (ev : Except Err Val) (h : c.repl_future = some (.running ev)) :
    (driverInterrupt c).repl_future = some (.cancelRequested ev) ∧
    (taskComplete (driverInterrupt c) .pending).future = .failed .cancelled ∧
    (waitResult (taskComplete (driverInterrupt c) .pending).console
      (taskComplete (driverInterrupt c) .pending).future false).result
      ≠ .blocked ∧
    (∀ c2 : ConsoleState, ∀ r2 : Except Err Val,
      c2.repl_future = some (.done r2) →
      (driverInterrupt c2).repl_future = c2.repl_future) := by
  have h1 : (driverInterrupt c).repl_future = some (.cancelRequested ev) := by
    simp [driverInterrupt, h, TaskStatus.isDone, cancelPending]
  have h2 : (taskComplete (driverInterrupt c) .pending).future
      = .failed .cancelled := by
    simp [taskComplete, h1]
  refine ⟨h1, h2, ?_, ?_⟩
  · rw [h2]; simp [waitResult]
  · intro c2 r2 h2'
    simp [driverInterrupt, h2', TaskStatus.isDone]

theorem driver_interrupt_cancels_pending_task_witness :
    ({ mkConsole [] 0 with
        repl_future := some (.running (.ok 9)) } : ConsoleState).repl_future
      = some (.running (.ok 9)) ∧
    ((driverInterrupt { mkConsole [] 0 with
        repl_future := some (.running (.ok 9)) }).repl_future
      = some (.cancelRequested (.ok 9)) ∧
    (taskComplete (driverInterrupt { mkConsole [] 0 with
        repl_future := some (.running (.ok 9)) }) .pending).future
      = .failed .cancelled ∧
    (waitResult (taskComplete (driverInterrupt { mkConsole [] 0 with
        repl_future := some (.running (.ok 9)) }) .pending).console
      (taskComplete (driverInterrupt { mkConsole [] 0 with
        repl_future := some (.running (.ok 9)) }) .pending).future
        false).result ≠ .blocked ∧
    (∀ c2 : ConsoleState, ∀ r2 : Except Err Val,
      c2.repl_future = some (.done r2) →
      (driverInterrupt c2).repl_future = c2.repl_future)) :=
  ⟨rfl, driver_interrupt_cancels_pending_task
    { mkConsole [] 0 with repl_future := some (.running (.ok 9)) }
    (.ok 9) rfl⟩

/-- C5 counterexample: the branch that chooses between the fixed
interrupt notice and the traceback is keyed on the sticky interrupted
flag, not on the stored error. With the flag already set, a future that
failed with an ordinary user error prints the interrupt notice, not the
formatted traceback the claim requires. -/
theorem interrupted_flag_masks_traceback :
    (waitResult { mkConsole [] 0 with keyboard_interrupted := true }
      (.failed (.userError 0)) false).printed = .interruptNotice ∧
    Err.userError 0 ≠ Err.keyboardInterrupt ∧
    Err.userError 0 ≠ Err.cancelled ∧
    Printed.interruptNotice ≠ Printed.traceback (.userError 0) := by
  decide

/-- C5 amended: after the wait, a future that failed with a
non-SystemExit error makes runcode print the fixed interrupt notice
exactly when the session is marked interrupted and a formatted traceback
of the stored error otherwise; in both cases runcode returns and the
session continues. -/
theorem failed_future_display_keyed_on_flag (c : ConsoleState) (e : Err)
    (stop : Bool) (h : ∀ k : Int, e ≠ .systemExit k) :
    (waitResult c (.failed e) stop).printed =
      (if c.keyboard_interrupted then Printed.interruptNotice
        else Printed.traceback e) ∧
    (waitResult c (.failed e) stop).result = .finishedNone := by
  cases e with
  | systemExit k => exact absurd rfl (h k)
  | keyboardInterrupt => exact ⟨rfl, rfl⟩
  | cancelled => exact ⟨rfl, rfl⟩
  | userError eid => exact ⟨rfl, rfl⟩

theorem failed_future_display_keyed_on_flag_witness :
    (∀ k : Int, Err.userError 3 ≠ Err.systemExit k) ∧
    ((waitResult (mkConsole [] 0) (.failed (.userError 3)) false).printed =
      (if (mkConsole [] 0).keyboard_interrupted then Printed.interruptNotice
        else Printed.traceback (.userError 3)) ∧
    (waitResult (mkConsole [] 0) (.failed (.userError 3))
      false).result = .finishedNone) :=
  ⟨fun k => by simp, failed_future_display_keyed_on_flag (mkConsole [] 0)
    (.userError 3) false (fun k => by simp)⟩

/-- C6 counterexample: after a spawned task has completed and its value
has been returned, no statement is suspended any more, yet the pending
handle is not cleared back to nil: it still holds the finished task. -/
theorem pending_task_handle_not_cleared :
    (runcodeModel ⟨[], .coro none (.ok 3)⟩ (mkConsole [] 0)
      false).console.repl_future = some (.done (.ok 3)) ∧
    (runcodeModel ⟨[], .coro none (.ok 3)⟩ (mkConsole [] 0)
      false).console.repl_future ≠ none ∧
    (runcodeModel ⟨[], .coro none (.ok 3)⟩ (mkConsole [] 0)
      false).result = .value 3 ∧
    (runcodeModel ⟨[], .coro none (.ok 3)⟩ (mkConsole [] 0)
      false).future = .fulfilled 3 := by
  decide

/-- C6 amended: the pending handle starts nil at construction and is set
when a multi-step computation is scheduled, but it is never reset to
nil: after completion it retains the finished task marked done, and the
interrupt path treats a done handle as absent by skipping the cancel. -/
theorem pending_task_handle_lifecycle (ls : List (String × Val)) (amb : Ctx)
    (bs : List (String × Val)) (ev : Except Err Val) (c c2 : ConsoleState)
    (stop : Bool) (r2 : Except Err Val)
    (h : c2.repl_future = some (.done r2)) :
    (mkConsole ls amb).repl_future = none ∧
    (runcodeModel ⟨bs, .coro none ev⟩ c stop).console.repl_future
      = some (.done ev) ∧
    (driverInterrupt c2).repl_future = some (.done r2) := by
  refine ⟨rfl, ?_, ?_⟩
  · cases ev with
    | ok v => rfl
    | error e => cases e <;> rfl
  · simp [driverInterrupt, h, TaskStatus.isDone]

theorem pending_task_handle_lifecycle_witness :
    ({ mkConsole [] 0 with
        repl_future := some (.done (.ok 1)) } : ConsoleState).repl_future
      = some (.done (.ok 1)) ∧
    ((mkConsole [] 5).repl_future = none ∧
    (runcodeModel ⟨[], .coro none (.ok 2)⟩ (mkConsole [] 5)
      false).console.repl_future = some (.done (.ok 2)) ∧
    (driverInterrupt { mkConsole [] 0 with
      repl_future := some (.done (.ok 1)) }).repl_future
      = some (.done (.ok 1))) :=
  ⟨rfl, pending_task_handle_lifecycle [] 5 [] (.ok 2) (mkConsole [] 5)
    { mkConsole [] 0 with repl_future := some (.done (.ok 1)) }
    false (.ok 1) rfl⟩

/-- C7: the ambient context snapshot is taken once at construction and
stored; every callback submission of every later runcode call passes
exactly that stored context, every task spawn passes exactly that stored
context, and no runcode call ever re-captures or changes it. -/
theorem context_captured_once_and_reused (ls : List (String × Val))
    (amb : Ctx) (us : List CodeUnit) (u : CodeUnit) (c : ConsoleState)
    (stop : Bool) :
    (mkConsole ls amb).context = amb ∧
    (runSeq (mkConsole ls amb) us).1.context = amb ∧
    (∀ x ∈ (runSeq (mkConsole ls amb) us).2, x = amb) ∧
    (runcodeModel u c stop).submitCtx = c.context ∧
    (∀ y ∈ (runcodeModel u c stop).spawnCtx, y = c.context) := by
  have h := runSeq_context_inv us (mkConsole ls amb)
  exact ⟨rfl, h.1, h.2, rfl, runcodeModel_spawnCtx u c stop⟩

theorem context_captured_once_and_reused_witness :
    (mkConsole [] 7).context = 7 ∧
    (runSeq (mkConsole [] 7) [⟨[], .coro none (.ok 0)⟩]).1.context = 7 ∧
    (∀ x ∈ (runSeq (mkConsole [] 7) [⟨[], .coro none (.ok 0)⟩]).2,
      x = 7) ∧
    (runcodeModel ⟨[], .value 1⟩ (mkConsole [] 7) false).submitCtx
      = (mkConsole [] 7).context ∧
    (∀ y ∈ (runcodeModel ⟨[], .value 1⟩ (mkConsole [] 7) false).spawnCtx,
      y = (mkConsole [] 7).context) :=
  context_captured_once_and_reused [] 7 [⟨[], .coro none (.ok 0)⟩]
    ⟨[], .value 1⟩ (mkConsole [] 7) false

theorem runcodeModel_return_code_of_none (u : CodeUnit) (c : ConsoleState)
    (s : Bool) (h : sysExitCodeOf u = none) :
    (runcodeModel u c s).console.return_code = c.return_code := by
  obtain ⟨bs, o⟩ := u
  cases o with
  | sysExit k => simp [sysExitCodeOf] at h
  | kbInterrupt => rfl
  | raises eid => rfl
  | value v => rfl
  | coro se ev =>
      cases se with
      | some eid => rfl
      | none =>
          cases ev with
          | ok v => rfl
          | error e =>
              cases e with
              | systemExit k => simp [sysExitCodeOf] at h
              | keyboardInterrupt => rfl
              | cancelled => rfl
              | userError eid => rfl

theorem runcodeModel_return_code_of_some (u : CodeUnit) (c : ConsoleState)
    (s : Bool) (k : Int) (h : sysExitCodeOf u = some k) :
    (runcodeModel u c s).console.return_code = k := by
  obtain ⟨bs, o⟩ := u
  cases o with
  | sysExit k2 =>
      have hk : k2 = k := by simpa [sysExitCodeOf] using h
      subst hk; rfl
  | kbInterrupt => simp [sysExitCodeOf] at h
  | raises eid => simp [sysExitCodeOf] at h
  | value v => simp [sysExitCodeOf] at h
  | coro se ev =>
      cases se with
      | some eid => simp [sysExitCodeOf] at h
      | none =>
          cases ev with
          | ok v => simp [sysExitCodeOf] at h
          | error e =>
              cases e with
              | systemExit k2 =>
                  have hk : k2 = k := by simpa [sysExitCodeOf] using h
                  subst hk; rfl
              | keyboardInterrupt => simp [sysExitCodeOf] at h
              | cancelled => simp [sysExitCodeOf] at h
              | userError eid => simp [sysExitCodeOf] at h

theorem runSeq_return_code_of_none (us : List CodeUnit) :
    ∀ c : ConsoleState, (∀ v ∈ us, sysExitCodeOf v = none) →
    (runSeq c us).1.return_code = c.return_code := by
  induction us with
  | nil => intro c _; rfl
  | cons u rest ih =>
      intro c hall
      have h1 : sysExitCodeOf u = none := hall u (by simp)
      have h2 := ih (runcodeModel u c false).console
        (fun v hv => hall v (by simp [hv]))
      calc (runSeq c (u :: rest)).1.return_code
          = (runSeq (runcodeModel u c false).console rest).1.return_code :=
            rfl
        _ = (runcodeModel u c false).console.return_code := h2
        _ = c.return_code := runcodeModel_return_code_of_none u c false h1

/-- C8: a session of units none of which carries a SystemExit leaves the
recorded return code at its initial 0, so a normal end-of-input exit
terminates with 0; a unit carrying SystemExit with code k records k; an
unexpected failure of the interactive loop itself records 1; and the
final status is exactly the recorded return code read at teardown. -/
theorem exit_code_contract (ls : List (String × Val)) (amb : Ctx)
    (us : List CodeUnit) (c c2 : ConsoleState) (stop : Bool) (u : CodeUnit)
    (k : Int) (hnone : ∀ v ∈ us, sysExitCodeOf v = none)
    (hk : sysExitCodeOf u = some k) :
    interactExitCode
      (replThreadRun (runSeq (mkConsole ls amb) us).1 .normal) = 0 ∧
    interactExitCode (runcodeModel u c stop).console = k ∧
    interactExitCode (replThreadRun c2 .unexpectedError) = 1 ∧
    (∀ cc : ConsoleState, interactExitCode cc = cc.return_code) := by
  refine ⟨?_, ?_, rfl, fun cc => rfl⟩
  · show (runSeq (mkConsole ls amb) us).1.return_code = 0
    rw [runSeq_return_code_of_none us (mkConsole ls amb) hnone]; rfl
  · exact runcodeModel_return_code_of_some u c stop k hk

theorem exit_code_contract_witness :
    (∀ v ∈ [(⟨[], .value 1⟩ : CodeUnit)], sysExitCodeOf v = none) ∧
    sysExitCodeOf ⟨[], .sysExit 7⟩ = some 7 ∧
    (interactExitCode (replThreadRun
      (runSeq (mkConsole [] 0) [⟨[], .value 1⟩]).1 .normal) = 0 ∧
    interactExitCode
      (runcodeModel ⟨[], .sysExit 7⟩ (mkConsole [] 0) false).console = 7 ∧
    interactExitCode (replThreadRun (mkConsole [] 0) .unexpectedError)
      = 1 ∧
    (∀ cc : ConsoleState, interactExitCode cc = cc.return_code)) :=
  ⟨by decide, rfl, exit_code_contract [] 0 [⟨[], .value 1⟩]
    (mkConsole [] 0) (mkConsole [] 0) false ⟨[], .sysExit 7⟩ 7
    (by decide) rfl⟩

/-- C9 counterexample: an exitmsg supplied as the empty string is a
caller-supplied value, yet the final write uses Python or-truthiness, so
the generated default farewell is printed instead of the supplied
text. -/
theorem empty_exitmsg_prints_default :
    interactFinalOutput (some "") = defaultExitMsg ∧
    interactFinalOutput (some "") ≠ "" ∧
    defaultExitMsg ≠ "" := by
  decide

/-- C9 amended: every non-empty caller-supplied exitmsg is written
verbatim as the final output before process exit; when no exitmsg is
supplied, or the supplied text is empty, the generated default farewell
is written instead. -/
theorem exitmsg_contract (s : String) (h : s ≠ "") :
    interactFinalOutput (some s) = s ∧
    interactFinalOutput none = defaultExitMsg := by
  refine ⟨?_, rfl⟩
  have hs : s.isEmpty = false := by
    cases he : s.isEmpty
    · rfl
    · exact absurd ((String.isEmpty_iff s).mp he) h
  simp [interactFinalOutput, pyOrStr, hs]

theorem exitmsg_contract_witness :
    ("bye" : String) ≠ "" ∧
    (interactFinalOutput (some "bye") = "bye" ∧
    interactFinalOutput none = defaultExitMsg) :=
  ⟨by decide, exitmsg_contract "bye" (by decide)⟩

theorem runcodeModel_kb_mono (u : CodeUnit) (c : ConsoleState) (s : Bool)
    (h : c.keyboard_interrupted = true) :
    (runcodeModel u c s).console.keyboard_interrupted = true := by
  obtain ⟨bs, o⟩ := u
  cases o with
  | sysExit k => exact h
  | kbInterrupt => rfl
  | raises eid => exact h
  | value v => exact h
  | coro se ev =>
      cases se with
      | some eid => exact h
      | none =>
          cases ev with
          | ok v => exact h
          | error e => cases e <;> exact h

theorem driverInterrupt_kb (c : ConsoleState) :
    (driverInterrupt c).keyboard_interrupted = true := by
  obtain ⟨l, cx, rf, kb, rc⟩ := c
  cases rf with
  | none => rfl
  | some t => cases t <;> rfl

theorem taskComplete_kb (c : ConsoleState) (f : FutureState)
    (h : c.keyboard_interrupted = true) :
    (taskComplete c f).console.keyboard_interrupted = true := by
  obtain ⟨l, cx, rf, kb, rc⟩ := c
  cases rf with
  | none => exact h
  | some t => cases t <;> exact h

theorem applySteps_kb_mono (ss : List SessionStep) : ∀ c : ConsoleState,
    c.keyboard_interrupted = true →
    (applySteps c ss).keyboard_interrupted = true := by
  induction ss with
  | nil => intro c h; exact h
  | cons s rest ih =>
      intro c h
      have h1 : (applyStep c s).keyboard_interrupted = true := by
        cases s with
        | execUnit u => exact runcodeModel_kb_mono u c false h
        | interrupt => exact driverInterrupt_kb c
        | complete => exact taskComplete_kb c .pending h
      exact ih (applyStep c s) h1

/-- C10: the interrupted flag starts unset at construction, is set to
true both by the interrupt arm of the submitted callback and by the
driver arm around run_forever, and once true it survives any further
sequence of runcode calls, interrupts and task completions: no operation
ever resets it. -/
theorem interrupted_flag_sticky (ls : List (String × Val)) (amb : Ctx)
    (ss : List SessionStep) (c c0 : ConsoleState) (bs : List (String × Val))
    (f : FutureState) (s : Bool) (h : c.keyboard_interrupted = true) :
    (mkConsole ls amb).keyboard_interrupted = false ∧
    (callback ⟨bs, .kbInterrupt⟩ c0 f s).console.keyboard_interrupted
      = true ∧
    (driverInterrupt c0).keyboard_interrupted = true ∧
    (applySteps c ss).keyboard_interrupted = true :=
  ⟨rfl, rfl, driverInterrupt_kb c0, applySteps_kb_mono ss c h⟩

theorem interrupted_flag_sticky_witness :
    ({ mkConsole [] 0 with
        keyboard_interrupted := true } : ConsoleState).keyboard_interrupted
      = true ∧
    ((mkConsole [] 0).keyboard_interrupted = false ∧
    (callback ⟨[], .kbInterrupt⟩ (mkConsole [] 0)
      .pending false).console.keyboard_interrupted = true ∧
    (driverInterrupt (mkConsole [] 0)).keyboard_interrupted = true ∧
    (applySteps { mkConsole [] 0 with keyboard_interrupted := true }
      [.execUnit ⟨[], .raises 0⟩, .interrupt,
        .complete]).keyboard_interrupted = true) :=
  ⟨rfl, interrupted_flag_sticky [] 0
    [.execUnit ⟨[], .raises 0⟩, .interrupt, .complete]
    { mkConsole [] 0 with keyboard_interrupted := true }
    (mkConsole [] 0) [] .pending false rfl⟩

end AsyncioConsole
